import Mathlib

/-!
Verification development for the TicketTracker repository.

The definitions below are a shallow embedding of the Python sources:
`tickettracker/config.py` (SLA and color configuration),
`tickettracker/views/tickets.py` (ticket coloring, SLA countdown, attachment
storage), `tickettracker/utils/uploads.py` (checksum utilities) and
`tickettracker/demo.py` (demo-mode lifecycle manager).  Python ints are
modeled as `Int`/`Nat`, floats arising from day arithmetic as `ℚ`, dicts as
association lists, and the filesystem as explicit record state.  External
collaborators (hashlib, werkzeug's filename sanitizer, SQLAlchemy engine
plumbing) appear as parameters or are noted in comments.
-/

namespace TicketTracker

/-! ### Constants from `config.py` -/

def GRADIENT_STAGE_ORDER : List String := ["stage0", "stage1", "stage2", "stage3"]

def GRADIENT_OVERDUE_KEY : String := "overdue"

def DEFAULT_GRADIENT_COLORS : List (String × String) :=
  [("stage0", "#bae6fd"), ("stage1", "#fde047"), ("stage2", "#fb923c"),
   ("stage3", "#ef4444"), ("overdue", "#7f1d1d")]

def DEFAULT_DUE_STAGE_DAYS : List Int := [28, 21, 14, 7]

def DEFAULT_PRIORITY_STAGE_DAYS : List (String × List Int) :=
  [("Low", [14, 21, 28, 35]), ("Medium", [10, 15, 20, 25]),
   ("High", [5, 7, 10, 14]), ("Critical", [2, 3, 5, 7])]

def DEFAULT_PRIORITY_STAGE_DAYS_FALLBACK : List Int := [7, 14, 21, 28]

def DEFAULT_BACKLOG_DUE_DAYS : Int := 21

/-! ### Threshold normalization from `config.py` -/

-- `_coerce_non_negative_int` applied to a value that is already an int:
-- `int(value)` succeeds and negative numbers are rejected.
def _coerce_non_negative_int (value : Int) : Option Int :=
  if value < 0 then none else some value

-- `_normalize_stage_values` on a typed `Optional[List[int]]` input: `None`
-- yields `[]`, a list keeps exactly the values `_coerce_non_negative_int`
-- accepts (the Mapping/scalar branches cannot arise for typed stage lists).
def _normalize_stage_values (raw_values : Option (List Int)) : List Int :=
  match raw_values with
  | none => []
  | some values => values.filterMap _coerce_non_negative_int

def isStrictlyIncreasing : List Int → Bool
  | [] => true
  | [_] => true
  | a :: b :: rest => decide (a < b) && isStrictlyIncreasing (b :: rest)

def runningTotals (running_total : Int) : List Int → List Int
  | [] => []
  | value :: rest => (running_total + value) :: runningTotals (running_total + value) rest

-- `_to_stage_thresholds`: an empty list stays empty, a strictly increasing
-- list is used as-is, anything else is replaced by its running totals.
def _to_stage_thresholds (values : List Int) : List Int :=
  if values.isEmpty then []
  else if isStrictlyIncreasing values then values
  else runningTotals 0 values

/-! ### `SLAConfig` from `config.py` -/

structure SLAConfig where
  due_stage_days : List Int
  priority_stage_days : List (String × List Int)
  default_due_days : Option Int
deriving Repr, DecidableEq

instance : DecidableRel (fun a b : Int => b ≤ a) := fun a b => Int.decLe b a

-- `due_thresholds`: `thresholds.sort(reverse=True)` then fall back to the
-- default list when empty.  (The `isinstance(day, int)` filter is the
-- identity on typed int lists.)
def SLAConfig.due_thresholds (c : SLAConfig) : List Int :=
  let thresholds := List.insertionSort (fun a b => b ≤ a) c.due_stage_days
  if thresholds.isEmpty then DEFAULT_DUE_STAGE_DAYS else thresholds

def SLAConfig.priority_thresholds (c : SLAConfig) (priority : String) : List Int :=
  let raw_thresholds := c.priority_stage_days.lookup priority
  let normalized := _normalize_stage_values raw_thresholds
  let thresholds := _to_stage_thresholds normalized
  if ¬ thresholds.isEmpty then thresholds
  else
    let default_thresholds := _normalize_stage_values (DEFAULT_PRIORITY_STAGE_DAYS.lookup priority)
    let thresholds2 := _to_stage_thresholds default_thresholds
    if ¬ thresholds2.isEmpty then thresholds2
    else _to_stage_thresholds (_normalize_stage_values (some DEFAULT_PRIORITY_STAGE_DAYS_FALLBACK))

-- `remaining_days`: the limit is the last backlog threshold, else the
-- configured default; `None` when neither exists.
def SLAConfig.remaining_days (c : SLAConfig) (priority : String) (age_days : ℚ) : Option ℚ :=
  let thresholds := c.priority_thresholds priority
  let limit : Option Int :=
    match thresholds.getLast? with
    | some v => some v
    | none => c.default_due_days
  limit.map (fun l => (l : ℚ) - age_days)

/-! ### `ColorConfig` from `config.py` -/

structure ColorConfig where
  gradient : List (String × String)
  statuses : List (String × String)
deriving Repr, DecidableEq

def ColorConfig.gradient_color (c : ColorConfig) (key : String) : String :=
  match DEFAULT_GRADIENT_COLORS.lookup key with
  | some dflt => (c.gradient.lookup key).getD dflt
  | none =>
      (c.gradient.lookup key).getD
        ((DEFAULT_GRADIENT_COLORS.lookup (GRADIENT_STAGE_ORDER.headD "")).getD "")

-- `gradient_stage_color`: clamp the index into `[0, len(order) - 1]`.
def ColorConfig.gradient_stage_color (c : ColorConfig) (stage_index : Int) : String :=
  let bounded_index := max 0 (min stage_index ((GRADIENT_STAGE_ORDER.length : Int) - 1))
  let key := GRADIENT_STAGE_ORDER.getD bounded_index.toNat ""
  c.gradient_color key

def ColorConfig.gradient_overdue_color (c : ColorConfig) : String :=
  c.gradient_color GRADIENT_OVERDUE_KEY

def defaultSLAConfig : SLAConfig :=
  { due_stage_days := DEFAULT_DUE_STAGE_DAYS,
    priority_stage_days := DEFAULT_PRIORITY_STAGE_DAYS,
    default_due_days := some DEFAULT_BACKLOG_DUE_DAYS }

def defaultColorConfig : ColorConfig :=
  { gradient := DEFAULT_GRADIENT_COLORS,
    statuses := [("on_hold", "#9c88ff"), ("resolved", "#2ed573"),
                 ("closed", "#57606f"), ("cancelled", "#747d8c")] }

/-! ### Ticket coloring engine from `views/tickets.py`

Naive datetimes are modeled as rational numbers of seconds since the epoch;
`date` values as integer day numbers.  `datetime.date()` truncates to the
day, `datetime.combine(d, time.min)` is `d` days worth of seconds. -/

structure TicketView where
  status : Option String
  due_date : Option ℚ
  created_at : Option ℚ
  age_reference_date : Option Int
  priority : Option String
deriving Repr, DecidableEq

-- `str.lower()` (ASCII case folding, matching the vocabulary used here).
def pyLower (s : String) : String := ⟨s.data.map Char.toLower⟩

-- `str.strip()`: drop whitespace from both ends.
def pyStrip (s : String) : String :=
  ⟨((s.data.dropWhile Char.isWhitespace).reverse.dropWhile Char.isWhitespace).reverse⟩

-- `str.replace(" ", "_")` for the single-character pattern used here.
def pyUnderscore (s : String) : String :=
  ⟨s.data.map (fun ch => if ch = ' ' then '_' else ch)⟩

-- Overwrite-or-append assignment for an association list, mirroring Python
-- dict item assignment.
def insertKV (m : List (String × String)) (k v : String) : List (String × String) :=
  if (m.lookup k).isSome then
    m.map (fun e => if e.1 = k then (k, v) else e)
  else m ++ [(k, v)]

def _build_status_palette (statuses : List (String × String)) : List (String × String) :=
  statuses.foldl
    (fun palette e =>
      let normalized_key := pyLower (pyStrip e.1)
      if normalized_key = "" ∨ e.2 = "" then palette
      else insertKV (insertKV palette normalized_key e.2) (pyUnderscore normalized_key) e.2)
    []

-- Python `a or b` on two optional strings: an empty string is falsy.
def pyOrStr (a b : Option String) : Option String :=
  match a with
  | some v => if v = "" then b else some v
  | none => b

def _resolve_status_color (status : Option String) (palette : List (String × String)) :
    Option String :=
  let normalized := pyLower (pyStrip (status.getD ""))
  if normalized = "" then none
  else pyOrStr (palette.lookup normalized) (palette.lookup (pyUnderscore normalized))

-- Python truthiness of an optional string used by `if status_color:`.
def truthyStr (a : Option String) : Option String :=
  match a with
  | some v => if v = "" then none else some v
  | none => none

-- `datetime.date()` as a day number for an epoch-seconds value.
def pyDate (t : ℚ) : Int := ⌊t / 86400⌋

-- Reference date resolution shared by the backlog branches:
-- `ticket.age_reference_date or (ticket.created_at.date() if ticket.created_at else now.date())`.
def referenceDate (ticket : TicketView) (now : ℚ) : Int :=
  match ticket.age_reference_date with
  | some d => d
  | none =>
    match ticket.created_at with
    | some c => pyDate c
    | none => pyDate now

-- `age_days = max(0.0, (now - reference_datetime).total_seconds()) / 86400`
-- (both call sites compute the max before or after the division; the two
-- agree because division by 86400 is monotone and fixes 0).
def ageDays (ticket : TicketView) (now : ℚ) : ℚ :=
  let reference_datetime : ℚ := (referenceDate ticket now : ℚ) * 86400
  max 0 (now - reference_datetime) / 86400

-- First index whose threshold is strictly exceeded by `days_remaining`
-- (the `for index, threshold in enumerate(thresholds)` loop of the
-- due-date branch).
def firstIdxGT (days_remaining : ℚ) : List Int → Option Nat
  | [] => none
  | t :: rest =>
    if (t : ℚ) < days_remaining then some 0
    else (firstIdxGT days_remaining rest).map (· + 1)

-- First index whose threshold is not yet exceeded (`age_days <= threshold`)
-- for the backlog branch.
def firstIdxLE (age_days : ℚ) : List Int → Option Nat
  | [] => none
  | t :: rest =>
    if age_days ≤ (t : ℚ) then some 0
    else (firstIdxLE age_days rest).map (· + 1)

def _compute_ticket_color (ticket : TicketView) (sla : SLAConfig) (colors : ColorConfig)
    (now : ℚ) : String :=
  let palette := _build_status_palette colors.statuses
  match truthyStr (_resolve_status_color ticket.status palette) with
  | some status_color => status_color
  | none =>
    let overdue_color := colors.gradient_overdue_color
    match ticket.due_date with
    | some due =>
      let seconds_remaining := due - now
      if seconds_remaining ≤ 0 then overdue_color
      else
        let days_remaining := seconds_remaining / 86400
        let thresholds := sla.due_thresholds
        if thresholds.isEmpty then colors.gradient_stage_color 0
        else
          match firstIdxGT days_remaining thresholds with
          | some index => colors.gradient_stage_color index
          | none => colors.gradient_stage_color ((thresholds.length : Int) - 1)
    | none =>
      let age_days := ageDays ticket now
      let thresholds := sla.priority_thresholds (ticket.priority.getD "")
      if ¬ thresholds.isEmpty then
        match firstIdxLE age_days thresholds with
        | some index => colors.gradient_stage_color index
        | none => overdue_color
      else colors.gradient_stage_color 0

/-! ### SLA countdown from `views/tickets.py` -/

def _compute_backlog_remaining_days (ticket : TicketView) (sla : SLAConfig) (now : ℚ) :
    Option ℚ :=
  sla.remaining_days (ticket.priority.getD "") (ageDays ticket now)

-- `_format_sla_countdown`.  The `math.isnan`/`math.isinf` guard has no ℚ
-- counterpart and is dropped.
def _format_sla_countdown (remaining_days : ℚ) : String :=
  if 0 ≤ remaining_days then
    let day_count := max 0 ⌈remaining_days⌉
    "SLA : T-" ++ toString day_count ++ " " ++ (if day_count = 1 then "Day" else "Days")
  else
    let day_count := ⌈|remaining_days|⌉
    "SLA : T+" ++ toString day_count ++ " " ++ (if day_count = 1 then "Day" else "Days")

-- The SLA metadata `_annotate_ticket_sla` attaches to a ticket.  The
-- presentational tint color it also assigns is not modeled.
structure SlaInfo where
  is_overdue : Bool
  sla_remaining_days : Option ℚ
  sla_countdown : Option String
deriving Repr, DecidableEq

def _annotate_ticket_sla (ticket : TicketView) (sla : SLAConfig) (now : ℚ) : SlaInfo :=
  match ticket.due_date with
  | some due =>
    { is_overdue := decide (due ≤ now), sla_remaining_days := none, sla_countdown := none }
  | none =>
    match _compute_backlog_remaining_days ticket sla now with
    | some remaining =>
      { is_overdue := decide (remaining < 0),
        sla_remaining_days := some remaining,
        sla_countdown := some (_format_sla_countdown remaining) }
    | none =>
      { is_overdue := false, sla_remaining_days := none, sla_countdown := none }

/-! ### Checksum utilities from `utils/uploads.py`

Bytes are `Nat`, a readable binary stream is its data plus a read position;
`seekable` records whether `stream.seek` works (the code probes it with a
`try`).  The SHA-256 digest object of `hashlib` is external: a digest that
has absorbed chunks `c₁, …, cₙ` reports `hexOf (c₁ ++ ⋯ ++ cₙ)` for an
arbitrary hex function `hexOf`, so every theorem below holds for the real
SHA-256 in particular. -/

def _DEFAULT_CHUNK_SIZE : Nat := 1024 * 1024

structure ByteStream where
  data : List Nat
  pos : Nat
  seekable : Bool
deriving Repr, DecidableEq

-- `stream.read(n)`: at most `n` bytes from the current position.
def streamRead (s : ByteStream) (n : Nat) : List Nat × ByteStream :=
  let chunk := (s.data.drop s.pos).take n
  (chunk, { s with pos := s.pos + chunk.length })

-- The `while True: chunk = stream.read(chunk_size); if not chunk: break;
-- digest.update(chunk)` loop.  Python's loop ends as soon as a read comes
-- back empty; the fuel (one unit per consumed byte, plus one) makes the
-- recursion structural and is never exhausted when `chunk_size ≥ 1`.
def hashChunksFuel (chunk_size : Nat) : Nat → ByteStream → List Nat → List Nat × ByteStream
  | 0, s, acc => (acc, s)
  | fuel + 1, s, acc =>
    let r := streamRead s chunk_size
    if r.1.isEmpty then (acc, s)
    else hashChunksFuel chunk_size fuel r.2 (acc ++ r.1)

def hashChunks (chunk_size : Nat) (s : ByteStream) : List Nat × ByteStream :=
  hashChunksFuel chunk_size (s.data.length + 1) s []

-- `compute_stream_sha256`: seek to 0 when possible, hash in chunks, seek
-- back to 0 when possible; returns the hex digest and the stream as left
-- behind.
def compute_stream_sha256 (hexOf : List Nat → String) (stream : ByteStream)
    (chunk_size : Nat) : String × ByteStream :=
  let can_seek := stream.seekable
  let s1 := if can_seek then { stream with pos := 0 } else stream
  let r := hashChunks chunk_size s1
  let s3 := if can_seek then { r.2 with pos := 0 } else r.2
  (hexOf r.1, s3)

-- `compute_file_sha256`: `path.open("rb")` yields a fresh stream over the
-- file's bytes; the read loop is identical.
def compute_file_sha256 (hexOf : List Nat → String) (data : List Nat)
    (chunk_size : Nat) : String :=
  hexOf (hashChunks chunk_size { data := data, pos := 0, seekable := true }).1

/-! ### Attachment deduplication store from `views/tickets.py`

The upload filesystem is an association list from stored path to content;
attachment rows live in a list kept in ascending `id` order, so that
`Attachment.query.filter_by(checksum=...).order_by(Attachment.id.asc()).first()`
is `List.find?`.  `werkzeug.utils.secure_filename` is an external
collaborator passed in as `sanitize`.  A nullable DB text column is modeled
as `Option String`; SQLAlchemy's unflushed-session append becomes a direct
list append with the next sequential id. -/

structure AttachmentRow where
  id : Nat
  ticket_id : Nat
  update_id : Option Nat
  original_filename : String
  stored_filename : String
  mimetype : Option String
  size : Option Nat
  checksum : Option String
  file_uuid : Option String
deriving Repr, DecidableEq

structure UploadFile where
  filename : String
  content : List Nat
  mimetype : Option String
deriving Repr, DecidableEq

structure UploadEnv where
  hexOf : List Nat → String
  sanitize : String → String

structure StoreState where
  files : List (String × List Nat)
  rows : List AttachmentRow
  nextId : Nat
  writeLog : List String
deriving Repr, DecidableEq

def fsLookup (files : List (String × List Nat)) (p : String) : Option (List Nat) :=
  files.lookup p

-- `upload.save(target_path)` / `file.write` with overwrite semantics.
def fsWrite (files : List (String × List Nat)) (p : String) (c : List Nat) :
    List (String × List Nat) :=
  (p, c) :: files.filter (fun e => e.1 != p)

-- In-place ORM row mutation (`existing.file_uuid = ...`) by row id.
def updateRow (rows : List AttachmentRow) (i : Nat)
    (f : AttachmentRow → AttachmentRow) : List AttachmentRow :=
  rows.map (fun r => if r.id = i then f r else r)

-- `pathlib.Path(name).suffix` for a sanitized (slash-free) filename:
-- the part from the last dot on, provided that dot is neither the first
-- nor the last character.
def pathSuffix (name : String) : String :=
  let cs := name.data
  if cs.contains '.' then
    let ext := (cs.reverse.takeWhile (fun ch => ch ≠ '.')).reverse
    if 0 < cs.length - ext.length - 1 ∧ ext ≠ [] then String.mk ('.' :: ext) else ""
  else ""

-- One iteration of the `for upload in files` loop of `_store_attachments`.
-- `uuidNext` is the value `generate_uuid7()` would mint if called, and
-- `timestamp` the formatted `datetime.utcnow()`; both are injected since
-- they come from clocks and randomness.
def storeOne (env : UploadEnv) (ticketId : Nat) (updateId : Option Nat)
    (upload : UploadFile) (uuidNext : String) (timestamp : String)
    (st : StoreState) : StoreState :=
  if upload.filename = "" then st
  else
    let original_name := upload.filename
    let sanitized := env.sanitize original_name
    let safe_name := if sanitized = "" then "attachment" else sanitized
    let checksum :=
      (compute_stream_sha256 env.hexOf
        { data := upload.content, pos := 0, seekable := true } _DEFAULT_CHUNK_SIZE).1
    let firstMatch := st.rows.find? (fun r => r.checksum == some checksum)
    let existing : Option AttachmentRow :=
      match firstMatch with
      | some r => if r.stored_filename = "" then none else some r
      | none => none
    match existing with
    | some ex =>
      -- `file_uuid = existing.file_uuid or generate_uuid7()`, with backfill
      -- of empty uuid/checksum columns onto the existing row.
      let file_uuid := if ex.file_uuid.getD "" = "" then uuidNext else ex.file_uuid.getD ""
      let rows1 :=
        if ex.file_uuid.getD "" = "" then
          updateRow st.rows ex.id (fun r => { r with file_uuid := some file_uuid })
        else st.rows
      let rows2 :=
        if ex.checksum.getD "" = "" then
          updateRow rows1 ex.id (fun r => { r with checksum := some checksum })
        else rows1
      let stored_filename := ex.stored_filename
      match fsLookup st.files stored_filename with
      | some present =>
        -- stored file still on disk: reuse it, no write
        let file_size : Option Nat :=
          match ex.size with
          | some s => some s
          | none => some present.length
        { files := st.files,
          rows := rows2 ++
            [{ id := st.nextId, ticket_id := ticketId, update_id := updateId,
               original_filename := original_name, stored_filename := stored_filename,
               mimetype := upload.mimetype, size := file_size,
               checksum := some checksum, file_uuid := some file_uuid }],
          nextId := st.nextId + 1,
          writeLog := st.writeLog }
      | none =>
        -- stored file missing from disk: rewrite the bytes at the same path
        { files := fsWrite st.files stored_filename upload.content,
          rows := rows2 ++
            [{ id := st.nextId, ticket_id := ticketId, update_id := updateId,
               original_filename := original_name, stored_filename := stored_filename,
               mimetype := upload.mimetype, size := some upload.content.length,
               checksum := some checksum, file_uuid := some file_uuid }],
          nextId := st.nextId + 1,
          writeLog := st.writeLog ++ [stored_filename] }
    | none =>
      -- no usable match: mint an id and write a fresh content-addressed file
      let file_uuid := uuidNext
      let stored_filename :=
        "shared/" ++ file_uuid ++ "-" ++ timestamp ++ pathSuffix safe_name
      { files := fsWrite st.files stored_filename upload.content,
        rows := st.rows ++
          [{ id := st.nextId, ticket_id := ticketId, update_id := updateId,
             original_filename := original_name, stored_filename := stored_filename,
             mimetype := upload.mimetype, size := some upload.content.length,
             checksum := some checksum, file_uuid := some file_uuid }],
        nextId := st.nextId + 1,
        writeLog := st.writeLog ++ [stored_filename] }

/-! ### Demo-mode manager from `demo.py`

File contents are opaque blobs: the live SQLite file is `Option Nat`
(`none` = the file does not exist), the uploads directory `Option (List Nat)`
(`none` = the directory does not exist, `some []` = exists but empty).
`db.create_all()` followed by `run_migrations()` always produces the same
fresh-schema database, `freshSchemaDb`.  Engine disposal, `mkdir` of parent
directories, and the sqlite-URI validation of `_database_path` (assumed to
have succeeded) have no observable effect in this model.  The snapshot
directory holds the copied database, the copied uploads tree and the
persisted `state.json`. -/

def freshSchemaDb : Nat := 0

structure DemoState where
  active : Bool
  dataset_name : String
  last_loaded_at : Option String
  had_database : Bool
  had_uploads : Bool
deriving Repr, DecidableEq

structure DemoFS where
  liveDb : Option Nat
  uploads : Option (List Nat)
  snapDb : Option Nat
  snapUploads : Option (List Nat)
  datasetFile : Option String
  stateFile : Option DemoState
deriving Repr, DecidableEq

structure DemoWorld where
  fs : DemoFS
  mgr : DemoState
deriving Repr, DecidableEq

structure OpResult where
  world : DemoWorld
  error : Option String
deriving Repr, DecidableEq

-- `_ensure_snapshot`: a no-op while active; otherwise delete any stale
-- snapshot artifacts, copy the database file if it exists, copy the uploads
-- tree (or create an empty snapshot uploads dir), and record the
-- `had_database` / `had_uploads` booleans.  (The recorded database URI and
-- uploads path strings are configuration echoes with no behavior in this
-- model.)
def ensureSnapshot (w : DemoWorld) : DemoWorld :=
  if w.mgr.active then w
  else
    let fs := w.fs
    let snapDb := fs.liveDb
    let snapUploads : Option (List Nat) :=
      match fs.uploads with
      | some tree => some tree
      | none => some []
    { fs := { fs with snapDb := snapDb, snapUploads := snapUploads },
      mgr := { w.mgr with
                had_database := fs.liveDb.isSome,
                had_uploads := fs.uploads.isSome && !(fs.uploads.getD []).isEmpty } }

-- `_restore_snapshot`: delete the live database file; copy the snapshot
-- back only if `had_database` and the snapshot file exists, else recreate
-- an empty schema; clear the uploads directory, then copy the snapshot
-- uploads back only if `had_uploads` and the snapshot tree exists.
def restoreSnapshot (w : DemoWorld) : DemoWorld :=
  let fs := w.fs
  let liveDb : Option Nat :=
    if w.mgr.had_database && fs.snapDb.isSome then fs.snapDb
    else some freshSchemaDb
  let uploads : Option (List Nat) :=
    if w.mgr.had_uploads && fs.snapUploads.isSome then fs.snapUploads
    else some []
  { w with fs := { fs with liveDb := liveDb, uploads := uploads } }

-- Failure points inside `enable`'s destructive replace-live-state phase.
inductive EnableFailure where
  | atCreateSchema
  | atClearUploads
  | atLoadDataset
deriving Repr, DecidableEq

-- `enable`: resolve the dataset (error if absent), snapshot if inactive,
-- then destructively replace the live state; on a failure anywhere in that
-- phase, restore the snapshot and report the error.  `demoDb` and
-- `demoUploads` are the contents `load_demo_dataset` produces on success;
-- `midUploads` is whatever partially-written uploads content a failing
-- dataset load leaves behind.
def enable (failure : Option EnableFailure) (demoDb : Nat) (demoUploads : List Nat)
    (midUploads : List Nat) (timestamp : String) (w : DemoWorld) : OpResult :=
  match w.fs.datasetFile with
  | none => { world := w, error := some "Demo dataset missing" }
  | some _ =>
    let w1 := ensureSnapshot w
    match failure with
    | some .atCreateSchema =>
      -- live db already deleted, schema creation raised
      let w2 := { w1 with fs := { w1.fs with liveDb := none } }
      { world := restoreSnapshot w2, error := some "enable failed" }
    | some .atClearUploads =>
      let w2 := { w1 with fs := { w1.fs with liveDb := some freshSchemaDb } }
      { world := restoreSnapshot w2, error := some "enable failed" }
    | some .atLoadDataset =>
      let w2 :=
        { w1 with fs := { w1.fs with liveDb := some freshSchemaDb,
                                     uploads := some midUploads } }
      { world := restoreSnapshot w2, error := some "enable failed" }
    | none =>
      let w2 :=
        { w1 with fs := { w1.fs with liveDb := some demoDb,
                                     uploads := some demoUploads } }
      let mgr := { w2.mgr with active := true, last_loaded_at := some timestamp }
      { world := { fs := { w2.fs with stateFile := some mgr }, mgr := mgr },
        error := none }

-- `disable`: no-op while inactive; otherwise restore the snapshot, persist
-- the now-inactive state, and delete the snapshot artifacts.
def disable (w : DemoWorld) : OpResult :=
  if !w.mgr.active then { world := w, error := none }
  else
    let w1 := restoreSnapshot w
    let mgr := { w1.mgr with active := false, last_loaded_at := none }
    let fs := { w1.fs with stateFile := some mgr, snapDb := none, snapUploads := none }
    { world := { fs := fs, mgr := mgr }, error := none }

-- `persist_dataset`: requires the active state *before* touching any file;
-- on success rewrite the dataset file with the serialized current database
-- (`serialized` stands for that JSON text) and persist the refreshed state.
def persistDataset (serialized : String) (timestamp : String) (w : DemoWorld) : OpResult :=
  if !w.mgr.active then
    { world := w,
      error := some "Demo mode is not currently active; enable it before persisting." }
  else
    match w.fs.datasetFile with
    | none => { world := w, error := some "Demo dataset missing" }
    | some _ =>
      let mgr := { w.mgr with last_loaded_at := some timestamp }
      { world := { fs := { w.fs with datasetFile := some serialized,
                                     stateFile := some mgr },
                   mgr := mgr },
        error := none }

-- `refresh`: requires the active state, then delegates to `enable`.
def refresh (failure : Option EnableFailure) (demoDb : Nat) (demoUploads : List Nat)
    (midUploads : List Nat) (timestamp : String) (w : DemoWorld) : OpResult :=
  if !w.mgr.active then
    { world := w, error := some "Demo mode is not currently active; enable it first." }
  else enable failure demoDb demoUploads midUploads timestamp w

-- A freshly constructed manager on a host with no snapshot directory:
-- `DemoModeState.load` returns the default inactive state.
def initialWorld (liveDb : Option Nat) (uploads : Option (List Nat))
    (dataset : Option String) : DemoWorld :=
  { fs := { liveDb := liveDb, uploads := uploads, snapDb := none, snapUploads := none,
            datasetFile := dataset, stateFile := none },
    mgr := { active := false, dataset_name := "demo_tickets.json",
             last_loaded_at := none, had_database := false, had_uploads := false } }

-- All states the manager can reach, including through failed enables.
inductive Reachable : DemoWorld → Prop where
  | init : ∀ db up ds, Reachable (initialWorld db up ds)
  | enableStep : ∀ w f d u m ts, Reachable w → Reachable (enable f d u m ts w).world
  | disableStep : ∀ w, Reachable w → Reachable (disable w).world
  | persistStep : ∀ w s ts, Reachable w → Reachable (persistDataset s ts w).world
  | refreshStep : ∀ w f d u m ts, Reachable w → Reachable (refresh f d u m ts w).world

-- States reachable when every destructive phase completes successfully
-- (no enable/refresh failure is ever injected).
inductive ReachableOk : DemoWorld → Prop where
  | init : ∀ db up ds, ReachableOk (initialWorld db up ds)
  | enableStep : ∀ w d u ts, ReachableOk w → ReachableOk (enable none d u [] ts w).world
  | disableStep : ∀ w, ReachableOk w → ReachableOk (disable w).world
  | persistStep : ∀ w s ts, ReachableOk w → ReachableOk (persistDataset s ts w).world
  | refreshStep : ∀ w d u ts, ReachableOk w → ReachableOk (refresh none d u [] ts w).world

/-! ## Theorems -/

/-- A due-date ticket with no overridden status, used to evaluate the
coloring engine at a given number of days before the due date. -/
def dueTicket (days_out : ℚ) : TicketView :=
  { status := some "Open", due_date := some (days_out * 86400), created_at := none,
    age_reference_date := none, priority := some "Low" }

/-- Claim C7: `persist_dataset` while demo mode is inactive fails with a
`DemoModeError` and performs no write at all: the resulting world — in
particular the dataset file — is byte-identical to the world before the
call (the active check precedes every filesystem access). -/
theorem c7_persist_inactive_error (w : DemoWorld) (s ts : String)
    (h : w.mgr.active = false) :
    (persistDataset s ts w).error.isSome = true
    ∧ (persistDataset s ts w).world = w
    ∧ (persistDataset s ts w).world.fs.datasetFile = w.fs.datasetFile := by
  simp [persistDataset, h]

theorem c7_persist_inactive_error_witness :
    (initialWorld (some 1) none (some "dataset")).mgr.active = false
    ∧ ((persistDataset "payload" "ts" (initialWorld (some 1) none (some "dataset"))).error.isSome
        = true
      ∧ (persistDataset "payload" "ts" (initialWorld (some 1) none (some "dataset"))).world
        = initialWorld (some 1) none (some "dataset")
      ∧ (persistDataset "payload" "ts"
          (initialWorld (some 1) none (some "dataset"))).world.fs.datasetFile
        = (initialWorld (some 1) none (some "dataset")).fs.datasetFile) :=
  ⟨rfl, c7_persist_inactive_error (initialWorld (some 1) none (some "dataset")) "payload" "ts" rfl⟩

lemma gradient_stage_color_eq (c : ColorConfig) (i : Int) :
    c.gradient_stage_color i
      = c.gradient_color (GRADIENT_STAGE_ORDER.getD (max 0 (min i 3)).toNat "") := rfl

/-- Claim C10: `gradient_stage_color` clamps every integer stage index —
negative or beyond the last gradient stage — into the valid range `[0, 3]`
and returns the color of one of the four defined stages, so ticket coloring
never sees an out-of-range stage index. -/
theorem c10_gradient_stage_clamped (c : ColorConfig) (i : Int) :
    (∃ key, key ∈ GRADIENT_STAGE_ORDER ∧ c.gradient_stage_color i = c.gradient_color key)
    ∧ c.gradient_stage_color i = c.gradient_stage_color (max 0 (min i 3))
    ∧ (i ≤ 0 → c.gradient_stage_color i = c.gradient_stage_color 0)
    ∧ (3 ≤ i → c.gradient_stage_color i = c.gradient_stage_color 3) := by
  refine ⟨⟨GRADIENT_STAGE_ORDER.getD (max 0 (min i 3)).toNat "", ?_, gradient_stage_color_eq c i⟩,
          ?_, fun hi => ?_, fun hi => ?_⟩
  · have hcase : (max 0 (min i 3)).toNat = 0 ∨ (max 0 (min i 3)).toNat = 1 ∨
        (max 0 (min i 3)).toNat = 2 ∨ (max 0 (min i 3)).toNat = 3 := by omega
    rcases hcase with h | h | h | h <;> rw [h] <;> decide
  · rw [gradient_stage_color_eq, gradient_stage_color_eq]
    have h : (max 0 (min (max 0 (min i 3)) 3)).toNat = (max 0 (min i 3)).toNat := by omega
    rw [h]
  · rw [gradient_stage_color_eq, gradient_stage_color_eq]
    have h : (max 0 (min i 3)).toNat = (max 0 (min (0 : Int) 3)).toNat := by omega
    rw [h]
  · rw [gradient_stage_color_eq, gradient_stage_color_eq]
    have h : (max 0 (min i 3)).toNat = (max 0 (min (3 : Int) 3)).toNat := by omega
    rw [h]

theorem c10_gradient_stage_clamped_witness :
    (∃ key, key ∈ GRADIENT_STAGE_ORDER
      ∧ defaultColorConfig.gradient_stage_color (-2) = defaultColorConfig.gradient_color key)
    ∧ defaultColorConfig.gradient_stage_color (-2)
        = defaultColorConfig.gradient_stage_color (max 0 (min (-2) 3))
    ∧ ((-2 : Int) ≤ 0 →
        defaultColorConfig.gradient_stage_color (-2) = defaultColorConfig.gradient_stage_color 0)
    ∧ ((3 : Int) ≤ -2 →
        defaultColorConfig.gradient_stage_color (-2) = defaultColorConfig.gradient_stage_color 3) :=
  c10_gradient_stage_clamped defaultColorConfig (-2)

/-- Claim C2 (evaluation of the code at the claimed inputs): with the default
due-thresholds `[28, 21, 14, 7]` and no status override, the coloring engine
returns the stage-0 color at 35 days out, but the stage-1 color at 24 days,
the stage-2 color at 19 days, and the stage-3 color at 12 days — diverging
from the claim (and from the repository's own test
`test_due_stage_thresholds_follow_zone_labels`, which expects stages
0, 1, 2 there and `due_thresholds() == [7, 14, 21, 28]`); at 6 days it
returns stage 3 and at the due date the overdue color as claimed. -/
theorem c2_due_stage_eval :
    defaultSLAConfig.due_thresholds = [28, 21, 14, 7]
    ∧ _compute_ticket_color (dueTicket 35) defaultSLAConfig defaultColorConfig 0 = "#bae6fd"
    ∧ _compute_ticket_color (dueTicket 24) defaultSLAConfig defaultColorConfig 0 = "#fde047"
    ∧ _compute_ticket_color (dueTicket 19) defaultSLAConfig defaultColorConfig 0 = "#fb923c"
    ∧ _compute_ticket_color (dueTicket 12) defaultSLAConfig defaultColorConfig 0 = "#ef4444"
    ∧ _compute_ticket_color (dueTicket 6) defaultSLAConfig defaultColorConfig 0 = "#ef4444"
    ∧ _compute_ticket_color (dueTicket 0) defaultSLAConfig defaultColorConfig 0 = "#7f1d1d"
    ∧ defaultColorConfig.gradient_color "stage0" = "#bae6fd"
    ∧ defaultColorConfig.gradient_color "stage1" = "#fde047"
    ∧ defaultColorConfig.gradient_color "stage2" = "#fb923c"
    ∧ defaultColorConfig.gradient_color "stage3" = "#ef4444"
    ∧ defaultColorConfig.gradient_overdue_color = "#7f1d1d" := by
  have hpal : truthyStr (_resolve_status_color (some "Open")
      (_build_status_palette defaultColorConfig.statuses)) = none := by decide
  have hthr : defaultSLAConfig.due_thresholds = [28, 21, 14, 7] := by decide
  have hcolor : ∀ d : ℚ, ¬ d * 86400 - 0 ≤ 0 → (d * 86400 - 0) / 86400 = d →
      _compute_ticket_color (dueTicket d) defaultSLAConfig defaultColorConfig 0
        = match firstIdxGT d [28, 21, 14, 7] with
          | some index => defaultColorConfig.gradient_stage_color (index : Int)
          | none => defaultColorConfig.gradient_stage_color (((4 : Nat) : Int) - 1) := by
    intro d hd hdiv
    simp only [_compute_ticket_color, dueTicket, hpal, hthr, if_neg hd, hdiv]
    norm_num
  refine ⟨hthr, ?_, ?_, ?_, ?_, ?_, ?_, by decide, by decide, by decide, by decide, by decide⟩
  · rw [hcolor 35 (by norm_num) (by norm_num)]; decide
  · rw [hcolor 24 (by norm_num) (by norm_num)]; decide
  · rw [hcolor 19 (by norm_num) (by norm_num)]; decide
  · rw [hcolor 12 (by norm_num) (by norm_num)]; decide
  · rw [hcolor 6 (by norm_num) (by norm_num)]; decide
  · simp only [_compute_ticket_color, dueTicket, hpal]
    norm_num
    decide

/-- Claim C1 (counterexample): starting from an inactive manager with no live
database file and no uploads directory, a failure during the destructive
replace-live-state phase of `enable` does *not* leave the system exactly as
it was: the error is raised and the active flag is unchanged, but a fresh
empty-schema database file and an empty uploads directory now exist where
none existed before the call. -/
theorem c1_counterexample :
    (enable (some .atLoadDataset) 9 [4] [] "ts" (initialWorld none none (some "ds"))).error.isSome
      = true
    ∧ (initialWorld none none (some "ds")).fs.liveDb = none
    ∧ (enable (some .atLoadDataset) 9 [4] [] "ts"
        (initialWorld none none (some "ds"))).world.fs.liveDb = some freshSchemaDb
    ∧ (initialWorld none none (some "ds")).fs.uploads = none
    ∧ (enable (some .atLoadDataset) 9 [4] [] "ts"
        (initialWorld none none (some "ds"))).world.fs.uploads = some []
    ∧ (enable (some .atLoadDataset) 9 [4] [] "ts"
        (initialWorld none none (some "ds"))).world.mgr.active = false := by
  decide

/-- Claim C1 (amended): if any failure occurs during the destructive
replace-live-state phase of `enable` called on an inactive manager, the
pre-enable snapshot is restored before the error is reported: the active
flag is unchanged, a live database file that existed before the call is
restored to its exact prior content, an uploads directory that existed
before the call is restored to its exact prior content, and the dataset
file and persisted state file are untouched; however, when no live database
file existed before, a fresh empty-schema database file is left behind, and
when no uploads directory existed before, an empty uploads directory is
left behind. -/
theorem c1_amended_rollback (w : DemoWorld) (f : EnableFailure) (d : Nat)
    (u m : List Nat) (ts : String)
    (hin : w.mgr.active = false) (hds : w.fs.datasetFile.isSome = true) :
    (enable (some f) d u m ts w).error.isSome = true
    ∧ (enable (some f) d u m ts w).world.mgr.active = false
    ∧ (∀ c, w.fs.liveDb = some c → (enable (some f) d u m ts w).world.fs.liveDb = some c)
    ∧ (w.fs.liveDb = none →
        (enable (some f) d u m ts w).world.fs.liveDb = some freshSchemaDb)
    ∧ (∀ t, w.fs.uploads = some t → (enable (some f) d u m ts w).world.fs.uploads = some t)
    ∧ (w.fs.uploads = none → (enable (some f) d u m ts w).world.fs.uploads = some [])
    ∧ (enable (some f) d u m ts w).world.fs.datasetFile = w.fs.datasetFile
    ∧ (enable (some f) d u m ts w).world.fs.stateFile = w.fs.stateFile := by
  obtain ⟨ds, hds2⟩ := Option.isSome_iff_exists.mp hds
  have hup : ∀ t, w.fs.uploads = some t →
      (if (w.fs.uploads.isSome && !(w.fs.uploads.getD []).isEmpty)
            && (match w.fs.uploads with
                | some tree => some tree
                | none => some ([] : List Nat)).isSome then
        (match w.fs.uploads with
         | some tree => some tree
         | none => some ([] : List Nat))
      else some []) = some t := by
    intro t ht
    cases t with
    | nil => simp [ht]
    | cons a t => simp [ht]
  cases f <;>
    refine ⟨?_, ?_, ?_, ?_, ?_, ?_, ?_, ?_⟩ <;>
      simp [enable, ensureSnapshot, restoreSnapshot, hds2, hin] <;>
      first
        | (intro c hc; simp [hc])
        | (intro t ht; exact hup t ht)
        | (intro hnone; simp [hnone])

theorem c1_amended_rollback_witness :
    (initialWorld (some 7) (some [3]) (some "ds")).mgr.active = false
    ∧ (initialWorld (some 7) (some [3]) (some "ds")).fs.datasetFile.isSome = true
    ∧ (enable (some .atLoadDataset) 9 [4] [8] "ts"
        (initialWorld (some 7) (some [3]) (some "ds"))).error.isSome = true
    ∧ (enable (some .atLoadDataset) 9 [4] [8] "ts"
        (initialWorld (some 7) (some [3]) (some "ds"))).world.fs.liveDb = some 7
    ∧ (enable (some .atLoadDataset) 9 [4] [8] "ts"
        (initialWorld (some 7) (some [3]) (some "ds"))).world.fs.uploads = some [3] :=
  ⟨rfl, rfl,
   (c1_amended_rollback (initialWorld (some 7) (some [3]) (some "ds"))
      .atLoadDataset 9 [4] [8] "ts" rfl rfl).1,
   (c1_amended_rollback (initialWorld (some 7) (some [3]) (some "ds"))
      .atLoadDataset 9 [4] [8] "ts" rfl rfl).2.2.1 7 rfl,
   (c1_amended_rollback (initialWorld (some 7) (some [3]) (some "ds"))
      .atLoadDataset 9 [4] [8] "ts" rfl rfl).2.2.2.2.1 [3] rfl⟩

/-- Claim C6 (counterexample): a reachable state violates the invariant.
Starting from a fresh inactive manager with a live database and a nonempty
uploads directory, an `enable` whose dataset load fails leaves the manager
inactive while the snapshotted database file and snapshotted uploads
directory still exist under the snapshot root (only `disable` deletes
them, and a failed `enable` never runs it). -/
theorem c6_counterexample :
    Reachable (enable (some .atLoadDataset) 9 [4] [] "ts"
      (initialWorld (some 5) (some [1]) (some "ds"))).world
    ∧ (enable (some .atLoadDataset) 9 [4] [] "ts"
        (initialWorld (some 5) (some [1]) (some "ds"))).world.mgr.active = false
    ∧ (enable (some .atLoadDataset) 9 [4] [] "ts"
        (initialWorld (some 5) (some [1]) (some "ds"))).world.fs.snapDb = some 5
    ∧ (enable (some .atLoadDataset) 9 [4] [] "ts"
        (initialWorld (some 5) (some [1]) (some "ds"))).world.fs.snapUploads = some [1] :=
  ⟨Reachable.enableStep (initialWorld (some 5) (some [1]) (some "ds"))
      (some .atLoadDataset) 9 [4] [] "ts"
      (Reachable.init (some 5) (some [1]) (some "ds")),
   by decide, by decide, by decide⟩

/-- Claim C6 (amended): in every state reachable through successful
operations (no failure injected into any enable/refresh), an inactive
manager has no snapshot artifacts on disk — no snapshotted database file
and no snapshotted uploads directory under the snapshot root — and after
any `disable` from such a state no snapshot artifacts remain; a failed
`enable`, by contrast, can leave snapshot artifacts behind while inactive
(see the counterexample). -/
theorem c6_amended_inactive_no_artifacts (w : DemoWorld) (h : ReachableOk w) :
    (w.mgr.active = false → w.fs.snapDb = none ∧ w.fs.snapUploads = none)
    ∧ (disable w).world.fs.snapDb = none ∧ (disable w).world.fs.snapUploads = none := by
  have main : ∀ v, ReachableOk v → v.mgr.active = false →
      v.fs.snapDb = none ∧ v.fs.snapUploads = none := by
    intro v hv
    induction hv with
    | init db up ds => intro _; exact ⟨rfl, rfl⟩
    | enableStep w d u ts hw ih =>
      intro hact
      cases hds : w.fs.datasetFile with
      | none =>
        rw [show (enable none d u [] ts w).world = w by simp [enable, hds]] at hact ⊢
        exact ih hact
      | some s =>
        exact absurd hact (by simp [enable, hds])
    | disableStep w hw ih =>
      intro hact
      by_cases hb : w.mgr.active = true
      · constructor <;> simp [disable, hb]
      · have hb2 : w.mgr.active = false := by simpa using hb
        rw [show (disable w).world = w by simp [disable, hb2]] at hact ⊢
        exact ih hact
    | persistStep w s ts hw ih =>
      intro hact
      by_cases hb : w.mgr.active = true
      · cases hds : w.fs.datasetFile with
        | none =>
          rw [show (persistDataset s ts w).world = w by simp [persistDataset, hb, hds]] at hact ⊢
          exact ih hact
        | some x =>
          exact absurd hact (by simp [persistDataset, hb, hds])
      · have hb2 : w.mgr.active = false := by simpa using hb
        rw [show (persistDataset s ts w).world = w by simp [persistDataset, hb2]] at hact ⊢
        exact ih hact
    | refreshStep w d u ts hw ih =>
      intro hact
      by_cases hb : w.mgr.active = true
      · cases hds : w.fs.datasetFile with
        | none =>
          rw [show (refresh none d u [] ts w).world = w by
            simp [refresh, enable, hb, hds]] at hact ⊢
          exact ih hact
        | some s =>
          exact absurd hact (by simp [refresh, enable, hb, hds])
      · have hb2 : w.mgr.active = false := by simpa using hb
        rw [show (refresh none d u [] ts w).world = w by simp [refresh, hb2]] at hact ⊢
        exact ih hact
  refine ⟨main w h, ?_, ?_⟩ <;>
    by_cases hb : w.mgr.active = true
  · simp [disable, hb]
  · have hb2 : w.mgr.active = false := by simpa using hb
    rw [show (disable w).world = w by simp [disable, hb2]]
    exact (main w h hb2).1
  · simp [disable, hb]
  · have hb2 : w.mgr.active = false := by simpa using hb
    rw [show (disable w).world = w by simp [disable, hb2]]
    exact (main w h hb2).2

theorem c6_amended_inactive_no_artifacts_witness :
    (initialWorld (some 5) (some [1]) (some "ds")).fs.snapDb = none
    ∧ (initialWorld (some 5) (some [1]) (some "ds")).fs.snapUploads = none
    ∧ (disable (initialWorld (some 5) (some [1]) (some "ds"))).world.fs.snapDb = none :=
  ⟨((c6_amended_inactive_no_artifacts (initialWorld (some 5) (some [1]) (some "ds"))
      (ReachableOk.init (some 5) (some [1]) (some "ds"))).1 rfl).1,
   ((c6_amended_inactive_no_artifacts (initialWorld (some 5) (some [1]) (some "ds"))
      (ReachableOk.init (some 5) (some [1]) (some "ds"))).1 rfl).2,
   (c6_amended_inactive_no_artifacts (initialWorld (some 5) (some [1]) (some "ds"))
      (ReachableOk.init (some 5) (some [1]) (some "ds"))).2.1⟩

instance : IsTotal Int (fun a b : Int => b ≤ a) := ⟨fun a b => le_total b a⟩

instance : IsTrans Int (fun a b : Int => b ≤ a) := ⟨fun _ _ _ h1 h2 => le_trans h2 h1⟩

instance : IsAntisymm Int (fun a b : Int => b ≤ a) := ⟨fun _ _ h1 h2 => le_antisymm h2 h1⟩

lemma insertionSortDesc_perm_eq (l1 l2 : List Int) (h : l1.Perm l2) :
    List.insertionSort (fun a b : Int => b ≤ a) l1
      = List.insertionSort (fun a b : Int => b ≤ a) l2 :=
  List.eq_of_perm_of_sorted
    (((List.perm_insertionSort _ l1).trans h).trans (List.perm_insertionSort _ l2).symm)
    (List.sorted_insertionSort _ l1) (List.sorted_insertionSort _ l2)

lemma normalize_id : ∀ values : List Int, (∀ v ∈ values, 0 ≤ v) →
    _normalize_stage_values (some values) = values := by
  intro values
  induction values with
  | nil => intro _; rfl
  | cons a t ih =>
    intro h
    have ha : ¬ a < 0 := not_lt.mpr (h a (List.mem_cons_self a t))
    have ht : ∀ v ∈ t, 0 ≤ v := fun v hv => h v (List.mem_cons_of_mem a hv)
    have ih2 := ih ht
    simp only [_normalize_stage_values] at ih2 ⊢
    simp [List.filterMap_cons, _coerce_non_negative_int, if_neg ha, ih2]

lemma runningTotals_length (acc : Int) (l : List Int) :
    (runningTotals acc l).length = l.length := by
  induction l generalizing acc with
  | nil => rfl
  | cons a t ih => simp [runningTotals, ih]

lemma to_stage_thresholds_ne_nil (values : List Int) (h : values ≠ []) :
    _to_stage_thresholds values ≠ [] := by
  unfold _to_stage_thresholds
  rw [if_neg (by simpa [List.isEmpty_iff] using h)]
  by_cases hsi : isStrictlyIncreasing values = true
  · simpa [hsi] using h
  · simp only [hsi, if_false, Bool.false_eq_true]
    intro hcontra
    apply h
    have hlen := congrArg List.length hcontra
    rw [runningTotals_length] at hlen
    exact List.length_eq_zero.mp hlen

lemma priority_thresholds_congr (c1 c2 : SLAConfig)
    (h : c1.priority_stage_days = c2.priority_stage_days) :
    ∀ p, c1.priority_thresholds p = c2.priority_thresholds p := by
  intro p
  simp only [SLAConfig.priority_thresholds, h]

/-- Backlog ticket for the C5 counterexample: priority "A", aged from day 0. -/
def c5ticket : TicketView :=
  { status := some "Open", due_date := none, created_at := none,
    age_reference_date := some 0, priority := some "A" }

def c5cfgA : SLAConfig :=
  { due_stage_days := [], priority_stage_days := [("A", [2, 1])],
    default_due_days := some 21 }

def c5cfgB : SLAConfig :=
  { due_stage_days := [], priority_stage_days := [("A", [1, 2])],
    default_due_days := some 21 }

/-- Claim C5 (counterexample): backlog (priority) thresholds are *not* sorted
into ascending order before use, and backlog classification is *not*
invariant under permutation of the supplied values: supplying `[2, 1]`
(a permutation of `[1, 2]`) yields normalized thresholds `[2, 3]` — the
running totals, not the ascending sort `[1, 2]` — and a ticket aged exactly
2 days is classified stage 0 under `[2, 1]` but stage 1 under `[1, 2]`. -/
theorem c5_counterexample :
    ([2, 1] : List Int).Perm [1, 2]
    ∧ c5cfgA.priority_thresholds "A" = [2, 3]
    ∧ c5cfgB.priority_thresholds "A" = [1, 2]
    ∧ c5cfgA.priority_thresholds "A" ≠ [1, 2]
    ∧ _compute_ticket_color c5ticket c5cfgA defaultColorConfig 172800 = "#bae6fd"
    ∧ _compute_ticket_color c5ticket c5cfgB defaultColorConfig 172800 = "#fde047" := by
  have hpal : truthyStr (_resolve_status_color (some "Open")
      (_build_status_palette defaultColorConfig.statuses)) = none := by decide
  have hage : ageDays
      ({ status := some "Open", due_date := none, created_at := none,
         age_reference_date := some 0, priority := some "A" } : TicketView) 172800 = 2 := by
    norm_num [ageDays, referenceDate]
  refine ⟨by decide, by decide, by decide, by decide, ?_, ?_⟩ <;>
    · simp only [_compute_ticket_color, c5ticket, hpal, hage]
      decide

/-- Claim C5 (amended): due-date thresholds are sorted into descending order
before use regardless of the order supplied in configuration (e.g.
`[30, 10, 20, 5]` is normalized to `[30, 20, 10, 5]`), so due-date — and,
because backlog lookups ignore the due-threshold list, all — ticket
classification is invariant under permutation of the supplied due-threshold
values.  Backlog (priority) thresholds, however, are not sorted: a strictly
increasing supplied list is used as-is, and any other supplied order is
replaced by its list of running totals, so backlog classification is not
invariant under permutation of the supplied values. -/
theorem c5_amended_threshold_normalization :
    (∀ c1 c2 : SLAConfig, c1.due_stage_days.Perm c2.due_stage_days →
        c1.due_thresholds = c2.due_thresholds)
    ∧ SLAConfig.due_thresholds
        { due_stage_days := [30, 10, 20, 5], priority_stage_days := [],
          default_due_days := none } = [30, 20, 10, 5]
    ∧ (∀ (t : TicketView) (colors : ColorConfig) (now : ℚ) (c1 c2 : SLAConfig),
        c1.due_stage_days.Perm c2.due_stage_days →
        c1.priority_stage_days = c2.priority_stage_days →
        _compute_ticket_color t c1 colors now = _compute_ticket_color t c2 colors now)
    ∧ (∀ (cfg : SLAConfig) (p : String) (values : List Int),
        cfg.priority_stage_days.lookup p = some values →
        (∀ v ∈ values, 0 ≤ v) → values ≠ [] →
        cfg.priority_thresholds p
          = if isStrictlyIncreasing values then values else runningTotals 0 values) := by
  have hdue : ∀ c1 c2 : SLAConfig, c1.due_stage_days.Perm c2.due_stage_days →
      c1.due_thresholds = c2.due_thresholds := by
    intro c1 c2 h
    simp only [SLAConfig.due_thresholds]
    rw [insertionSortDesc_perm_eq _ _ h]
  refine ⟨hdue, by decide, ?_, ?_⟩
  · intro t colors now c1 c2 hperm hpri
    have h1 := hdue c1 c2 hperm
    have h2 := priority_thresholds_congr c1 c2 hpri
    simp only [_compute_ticket_color, h1, h2]
  · intro cfg p values hlk hnn hne
    have h1 : _to_stage_thresholds values ≠ [] := to_stage_thresholds_ne_nil values hne
    simp only [SLAConfig.priority_thresholds, hlk, normalize_id values hnn]
    rw [if_pos (by simpa [List.isEmpty_iff] using h1)]
    unfold _to_stage_thresholds
    rw [if_neg (by simpa [List.isEmpty_iff] using hne)]

theorem c5_amended_threshold_normalization_witness :
    SLAConfig.due_thresholds
        { due_stage_days := [30, 10, 20, 5], priority_stage_days := [],
          default_due_days := none }
      = SLAConfig.due_thresholds
        { due_stage_days := [5, 10, 20, 30], priority_stage_days := [],
          default_due_days := none }
    ∧ SLAConfig.due_thresholds
        { due_stage_days := [30, 10, 20, 5], priority_stage_days := [],
          default_due_days := none } = [30, 20, 10, 5]
    ∧ c5cfgB.priority_thresholds "A" = [1, 2] := by
  refine ⟨c5_amended_threshold_normalization.1 _ _ (by decide),rfl, ?_⟩
  · have h := c5_amended_threshold_normalization.2.2.2 c5cfgB "A" [1, 2] rfl
      (by decide) (by decide)
    rw [h]
    decide

lemma priority_thresholds_ne_nil (cfg : SLAConfig) (p : String) :
    cfg.priority_thresholds p ≠ [] := by
  simp only [SLAConfig.priority_thresholds]
  by_cases h1 : (_to_stage_thresholds
      (_normalize_stage_values (cfg.priority_stage_days.lookup p))).isEmpty = true
  · rw [if_neg (by simp [h1])]
    by_cases h2 : (_to_stage_thresholds
        (_normalize_stage_values (DEFAULT_PRIORITY_STAGE_DAYS.lookup p))).isEmpty = true
    · rw [if_neg (by simp [h2])]
      decide
    · rw [if_pos (by simpa using h2)]
      simpa [List.isEmpty_iff] using h2
  · rw [if_pos (by simpa using h1)]
    simpa [List.isEmpty_iff] using h1

/-- Backlog ticket for the C8 witness: priority "Low", aged from day 0. -/
def c8ticket : TicketView :=
  { status := some "Open", due_date := none, created_at := none,
    age_reference_date := some 0, priority := some "Low" }

/-- Claim C8: for a backlog ticket (no due date) with priority `p` and age
`a` days, the annotated remaining days equal the final backlog threshold of
`p` minus `a` (`priority_thresholds` can never be empty — its hardcoded
fallback list is nonempty — so the `default_due_days` fallback of
`remaining_days` is unreachable, in line with the claim's "when no
thresholds apply"); the ticket is overdue iff remaining < 0; and the
countdown string is exactly `SLA : T-<N> Day(s)` with `N = ⌈remaining⌉`
when `remaining ≥ 0`, and `SLA : T+<N> Day(s)` with `N = ⌈|remaining|⌉`
when `remaining < 0` (with the singular label exactly when `N = 1`). -/
theorem c8_backlog_sla_countdown (cfg : SLAConfig) (t : TicketView) (now : ℚ)
    (hdue : t.due_date = none) :
    let p := t.priority.getD ""
    let r := (((cfg.priority_thresholds p).getLast
        (priority_thresholds_ne_nil cfg p) : Int) : ℚ) - ageDays t now
    (_annotate_ticket_sla t cfg now).sla_remaining_days = some r
    ∧ ((_annotate_ticket_sla t cfg now).is_overdue = true ↔ r < 0)
    ∧ (_annotate_ticket_sla t cfg now).sla_countdown
      = some (if 0 ≤ r then
          "SLA : T-" ++ toString ⌈r⌉ ++ " " ++ (if ⌈r⌉ = 1 then "Day" else "Days")
        else
          "SLA : T+" ++ toString ⌈|r|⌉ ++ " " ++ (if ⌈|r|⌉ = 1 then "Day" else "Days")) := by
  intro p r
  have hlast : (cfg.priority_thresholds p).getLast?
      = some ((cfg.priority_thresholds p).getLast (priority_thresholds_ne_nil cfg p)) :=
    List.getLast?_eq_getLast_of_ne_nil (priority_thresholds_ne_nil cfg p)
  have hrem : _compute_backlog_remaining_days t cfg now = some r := by
    simp only [_compute_backlog_remaining_days, SLAConfig.remaining_days, hlast, r, p]
    rfl
  have hann : _annotate_ticket_sla t cfg now
      = { is_overdue := decide (r < 0), sla_remaining_days := some r,
          sla_countdown := some (_format_sla_countdown r) } := by
    simp only [_annotate_ticket_sla, hdue, hrem]
  refine ⟨by rw [hann], by rw [hann]; simp, ?_⟩
  rw [hann]
  simp only [Option.some.injEq, _format_sla_countdown]
  by_cases hr : 0 ≤ r
  · have hceil : (0 : Int) ≤ ⌈r⌉ := Int.ceil_nonneg hr
    rw [if_pos hr, if_pos hr, max_eq_right hceil]
  · rw [if_neg hr, if_neg hr]

theorem c8_backlog_sla_countdown_witness :
    c8ticket.due_date = none
    ∧ (_annotate_ticket_sla c8ticket defaultSLAConfig 259200).sla_remaining_days = some 32
    ∧ (_annotate_ticket_sla c8ticket defaultSLAConfig 259200).is_overdue = false
    ∧ (_annotate_ticket_sla c8ticket defaultSLAConfig 259200).sla_countdown
      = some "SLA : T-32 Days" := by
  have h := c8_backlog_sla_countdown defaultSLAConfig c8ticket 259200 rfl
  simp only at h
  have hlast : ((defaultSLAConfig.priority_thresholds (c8ticket.priority.getD "")).getLast
      (priority_thresholds_ne_nil defaultSLAConfig (c8ticket.priority.getD "")) : Int)
      = 35 := by decide
  have hage : ageDays c8ticket 259200 = 3 := by
    have : referenceDate c8ticket 259200 = 0 := by decide
    norm_num [ageDays, this]
  rw [hlast, hage] at h
  norm_num at h
  refine ⟨rfl, h.1, by rw [h.2.1], ?_⟩
  rw [h.2.2]
  norm_num
  decide

lemma hashChunksFuel_spec (cs : Nat) (hcs : 1 ≤ cs) :
    ∀ (fuel : Nat) (s : ByteStream) (acc : List Nat),
      s.data.length - s.pos ≤ fuel →
      hashChunksFuel cs fuel s acc
        = (acc ++ s.data.drop s.pos, { s with pos := max s.pos s.data.length }) := by
  intro fuel
  induction fuel with
  | zero =>
    intro s acc h
    have hle : s.data.length ≤ s.pos := by omega
    have hmax : max s.pos s.data.length = s.pos := by omega
    simp [hashChunksFuel, List.drop_eq_nil_of_le hle, hmax]
  | succ fuel ih =>
    intro s acc h
    by_cases hempty : ((s.data.drop s.pos).take cs).isEmpty = true
    · have hnil : s.data.drop s.pos = [] := by
        rcases List.take_eq_nil_iff.mp (List.isEmpty_iff.mp hempty) with h' | h'
        · omega
        · exact h'
      have hle : s.data.length ≤ s.pos := List.drop_eq_nil_iff.mp hnil
      have hmax : max s.pos s.data.length = s.pos := by omega
      simp [hashChunksFuel, streamRead, hempty, hnil, hmax]
    · have hchunk : (s.data.drop s.pos).take cs ≠ [] := by
        simpa [List.isEmpty_iff] using hempty
      have hlt : s.pos < s.data.length := by
        by_contra hge
        exact hchunk (by simp [List.drop_eq_nil_of_le (by omega : s.data.length ≤ s.pos)])
      have hclen : ((s.data.drop s.pos).take cs).length = min cs (s.data.length - s.pos) := by
        simp [List.length_take, List.length_drop]
      have hclen1 : 1 ≤ ((s.data.drop s.pos).take cs).length := by
        have := List.length_pos.mpr hchunk
        omega
      have hfuel : s.data.length - (s.pos + ((s.data.drop s.pos).take cs).length) ≤ fuel := by
        omega
      have hdrop : (s.data.drop s.pos).take cs
          ++ s.data.drop (s.pos + ((s.data.drop s.pos).take cs).length)
          = s.data.drop s.pos := by
        rw [show s.pos + ((s.data.drop s.pos).take cs).length
            = s.pos + ((s.data.drop s.pos).take cs).length from rfl,
          ← List.drop_drop, hclen]
        by_cases hcase : cs ≤ s.data.length - s.pos
        · rw [min_eq_left hcase]
          exact List.take_append_drop cs (s.data.drop s.pos)
        · have hlen : (s.data.drop s.pos).length ≤ cs := by
            simp only [List.length_drop]
            omega
          have hnil2 : (s.data.drop s.pos).drop (s.data.length - s.pos) = [] :=
            List.drop_eq_nil_of_le (by simp [List.length_drop])
          rw [min_eq_right (by omega), List.take_of_length_le hlen, hnil2]
          simp
      have hmax : max (s.pos + ((s.data.drop s.pos).take cs).length) s.data.length
          = max s.pos s.data.length := by
        omega
      have hih := ih { s with pos := s.pos + ((s.data.drop s.pos).take cs).length }
        (acc ++ (s.data.drop s.pos).take cs) (by simpa using hfuel)
      simp only [hashChunksFuel, streamRead, hempty, Bool.false_eq_true, if_false]
      rw [hih]
      simp only [hmax, List.append_assoc, hdrop]

lemma hashChunks_spec (cs : Nat) (hcs : 1 ≤ cs) (s : ByteStream) :
    hashChunks cs s = (s.data.drop s.pos, { s with pos := max s.pos s.data.length }) := by
  simpa [hashChunks] using
    hashChunksFuel_spec cs hcs (s.data.length + 1) s [] (by omega)

lemma hashChunks_zero (s : ByteStream) : hashChunks 0 s = ([], s) := by
  simp [hashChunks, hashChunksFuel, streamRead]

lemma compute_stream_sha256_spec (hexOf : List Nat → String) (s : ByteStream) (cs : Nat)
    (hcs : 1 ≤ cs) (hseek : s.seekable = true) :
    compute_stream_sha256 hexOf s cs = (hexOf s.data, { s with pos := 0 }) := by
  simp [compute_stream_sha256, hseek, hashChunks_spec cs hcs]

/-- Claim C9: for every seekable readable byte stream, `compute_stream_sha256`
leaves the stream rewound to the start (and, when the chunk size is
positive, hashes the full content no matter the starting position); and for
every byte sequence, hashing a fresh stream over those bytes — seekable or
not — produces output identical to `compute_file_sha256` over a file with
the same bytes. -/
theorem c9_hash_stream_properties (hexOf : List Nat → String) (s : ByteStream) (cs : Nat)
    (hseek : s.seekable = true) :
    (compute_stream_sha256 hexOf s cs).2 = { s with pos := 0 }
    ∧ (1 ≤ cs → (compute_stream_sha256 hexOf s cs).1 = hexOf s.data)
    ∧ ∀ (data : List Nat) (b : Bool),
        (compute_stream_sha256 hexOf { data := data, pos := 0, seekable := b } cs).1
          = compute_file_sha256 hexOf data cs := by
  refine ⟨?_, ?_, ?_⟩
  · by_cases hcs : 1 ≤ cs
    · rw [compute_stream_sha256_spec hexOf s cs hcs hseek]
    · have hcs0 : cs = 0 := by omega
      subst hcs0
      simp [compute_stream_sha256, hseek, hashChunks_zero]
  · intro hcs
    rw [compute_stream_sha256_spec hexOf s cs hcs hseek]
  · intro data b
    by_cases hcs : 1 ≤ cs
    · cases b <;>
        simp [compute_stream_sha256, compute_file_sha256, hashChunks_spec cs hcs]
    · have hcs0 : cs = 0 := by omega
      subst hcs0
      cases b <;>
        simp [compute_stream_sha256, compute_file_sha256, hashChunks_zero]

theorem c9_hash_stream_properties_witness :
    (⟨[1, 2, 3], 2, true⟩ : ByteStream).seekable = true
    ∧ (compute_stream_sha256 (fun l => toString l.length) ⟨[1, 2, 3], 2, true⟩ 4).2
      = (⟨[1, 2, 3], 0, true⟩ : ByteStream)
    ∧ (compute_stream_sha256 (fun l => toString l.length) ⟨[1, 2, 3], 2, true⟩ 4).1
      = (fun l : List Nat => toString l.length) [1, 2, 3]
    ∧ (compute_stream_sha256 (fun l => toString l.length) ⟨[9], 0, false⟩ 4).1
      = compute_file_sha256 (fun l => toString l.length) [9] 4 :=
  ⟨rfl,
   (c9_hash_stream_properties (fun l => toString l.length) ⟨[1, 2, 3], 2, true⟩ 4 rfl).1,
   (c9_hash_stream_properties (fun l => toString l.length) ⟨[1, 2, 3], 2, true⟩ 4 rfl).2.1
     (by norm_num),
   (c9_hash_stream_properties (fun l => toString l.length) ⟨[1, 2, 3], 2, true⟩ 4 rfl).2.2
     [9] false⟩

lemma stream_checksum_eq (hexOf : List Nat → String) (c : List Nat) (p : Nat) :
    (compute_stream_sha256 hexOf ⟨c, p, true⟩ _DEFAULT_CHUNK_SIZE).1 = hexOf c := by
  rw [compute_stream_sha256_spec hexOf ⟨c, p, true⟩ _DEFAULT_CHUNK_SIZE
    (by norm_num [_DEFAULT_CHUNK_SIZE]) rfl]

lemma fsLookup_fsWrite_self (files : List (String × List Nat)) (p : String) (c : List Nat) :
    fsLookup (fsWrite files p c) p = some c := by
  simp [fsLookup, fsWrite, List.lookup]

lemma storedName_ne_empty (a b d : String) : "shared/" ++ a ++ "-" ++ b ++ d ≠ "" := by
  intro hcontra
  have hlen := congrArg String.length hcontra
  simp only [String.length_append] at hlen
  have h7 : ("shared/" : String).length = 7 := rfl
  have h1 : ("-" : String).length = 1 := rfl
  have h0 : ("" : String).length = 0 := rfl
  omega

/-- Claim C3: hashing two seekable streams with identical byte content
(including zero-length content) yields equal hex digests, and uploading B
after uploading A with the same content — starting from a store holding no
row for that checksum — produces exactly two new Attachment rows sharing
one stored file: the same `stored_filename`, the same `checksum`, and the
same `file_uuid`, with the underlying file written exactly once (one entry
appended to the write log, by the first upload). -/
theorem c3_dedup_shared_file
    (env : UploadEnv) (c : List Nat) (nameA nameB : String) (mA mB : Option String)
    (st0 : StoreState) (u1 u2 ts1 ts2 : String) (t1 t2 : Nat) (up1 up2 : Option Nat)
    (hA : nameA ≠ "") (hB : nameB ≠ "") (hu : u1 ≠ "") (hh : env.hexOf c ≠ "")
    (hclean : ∀ r ∈ st0.rows, r.checksum ≠ some (env.hexOf c)) :
    (∀ p1 p2 : Nat,
      (compute_stream_sha256 env.hexOf ⟨c, p1, true⟩ _DEFAULT_CHUNK_SIZE).1
        = (compute_stream_sha256 env.hexOf ⟨c, p2, true⟩ _DEFAULT_CHUNK_SIZE).1)
    ∧ (storeOne env t2 up2 ⟨nameB, c, mB⟩ u2 ts2
        (storeOne env t1 up1 ⟨nameA, c, mA⟩ u1 ts1 st0)).rows
      = st0.rows ++
        [{ id := st0.nextId, ticket_id := t1, update_id := up1, original_filename := nameA,
           stored_filename := "shared/" ++ u1 ++ "-" ++ ts1 ++ pathSuffix
             (if env.sanitize nameA = "" then "attachment" else env.sanitize nameA),
           mimetype := mA, size := some c.length, checksum := some (env.hexOf c),
           file_uuid := some u1 },
         { id := st0.nextId + 1, ticket_id := t2, update_id := up2,
           original_filename := nameB,
           stored_filename := "shared/" ++ u1 ++ "-" ++ ts1 ++ pathSuffix
             (if env.sanitize nameA = "" then "attachment" else env.sanitize nameA),
           mimetype := mB, size := some c.length, checksum := some (env.hexOf c),
           file_uuid := some u1 }]
    ∧ (storeOne env t2 up2 ⟨nameB, c, mB⟩ u2 ts2
        (storeOne env t1 up1 ⟨nameA, c, mA⟩ u1 ts1 st0)).writeLog
      = st0.writeLog ++ ["shared/" ++ u1 ++ "-" ++ ts1 ++ pathSuffix
          (if env.sanitize nameA = "" then "attachment" else env.sanitize nameA)]
    ∧ fsLookup (storeOne env t2 up2 ⟨nameB, c, mB⟩ u2 ts2
        (storeOne env t1 up1 ⟨nameA, c, mA⟩ u1 ts1 st0)).files
        ("shared/" ++ u1 ++ "-" ++ ts1 ++ pathSuffix
          (if env.sanitize nameA = "" then "attachment" else env.sanitize nameA))
      = some c := by
  have hfind : st0.rows.find? (fun r => r.checksum == some (env.hexOf c)) = none := by
    rw [List.find?_eq_none]
    intro x hx
    simpa using hclean x hx
  have hP : ("shared/" ++ u1 ++ "-" ++ ts1 ++ pathSuffix
      (if env.sanitize nameA = "" then "attachment" else env.sanitize nameA)) ≠ "" :=
    storedName_ne_empty _ _ _
  have hst1 : storeOne env t1 up1 ⟨nameA, c, mA⟩ u1 ts1 st0
      = { files := fsWrite st0.files ("shared/" ++ u1 ++ "-" ++ ts1 ++ pathSuffix
            (if env.sanitize nameA = "" then "attachment" else env.sanitize nameA)) c,
          rows := st0.rows ++
            [{ id := st0.nextId, ticket_id := t1, update_id := up1,
               original_filename := nameA,
               stored_filename := "shared/" ++ u1 ++ "-" ++ ts1 ++ pathSuffix
                 (if env.sanitize nameA = "" then "attachment" else env.sanitize nameA),
               mimetype := mA, size := some c.length, checksum := some (env.hexOf c),
               file_uuid := some u1 }],
          nextId := st0.nextId + 1,
          writeLog := st0.writeLog ++ ["shared/" ++ u1 ++ "-" ++ ts1 ++ pathSuffix
            (if env.sanitize nameA = "" then "attachment" else env.sanitize nameA)] } := by
    simp only [storeOne, stream_checksum_eq, hfind, if_neg hA]
  have hst2 : storeOne env t2 up2 ⟨nameB, c, mB⟩ u2 ts2
      (storeOne env t1 up1 ⟨nameA, c, mA⟩ u1 ts1 st0)
      = { files := fsWrite st0.files ("shared/" ++ u1 ++ "-" ++ ts1 ++ pathSuffix
            (if env.sanitize nameA = "" then "attachment" else env.sanitize nameA)) c,
          rows := st0.rows ++
            [{ id := st0.nextId, ticket_id := t1, update_id := up1,
               original_filename := nameA,
               stored_filename := "shared/" ++ u1 ++ "-" ++ ts1 ++ pathSuffix
                 (if env.sanitize nameA = "" then "attachment" else env.sanitize nameA),
               mimetype := mA, size := some c.length, checksum := some (env.hexOf c),
               file_uuid := some u1 },
             { id := st0.nextId + 1, ticket_id := t2, update_id := up2,
               original_filename := nameB,
               stored_filename := "shared/" ++ u1 ++ "-" ++ ts1 ++ pathSuffix
                 (if env.sanitize nameA = "" then "attachment" else env.sanitize nameA),
               mimetype := mB, size := some c.length, checksum := some (env.hexOf c),
               file_uuid := some u1 }],
          nextId := st0.nextId + 2,
          writeLog := st0.writeLog ++ ["shared/" ++ u1 ++ "-" ++ ts1 ++ pathSuffix
            (if env.sanitize nameA = "" then "attachment" else env.sanitize nameA)] } := by
    rw [hst1]
    simp only [storeOne, stream_checksum_eq, if_neg hB]
    rw [List.find?_append, hfind]
    simp only [Option.none_or, List.find?_cons, beq_self_eq_true, if_neg hP,
      Option.getD_some, if_neg hu, if_neg hh, fsLookup_fsWrite_self, List.append_assoc,
      List.cons_append, List.nil_append]
  refine ⟨fun p1 p2 => by rw [stream_checksum_eq, stream_checksum_eq], ?_, ?_, ?_⟩
  · rw [hst2]
  · rw [hst2]
  · rw [hst2]
    exact fsLookup_fsWrite_self _ _ _

/-- Environment for the C3/C4 witnesses: a deterministic stand-in digest and
the identity filename sanitizer. -/
def c3env : UploadEnv :=
  { hexOf := fun l => "H" ++ toString l.length, sanitize := fun s => s }

def c3st0 : StoreState := { files := [], rows := [], nextId := 1, writeLog := [] }

theorem c3_dedup_shared_file_witness :
    c3st0.rows = ([] : List AttachmentRow)
    ∧ (storeOne c3env 11 none ⟨"b.txt", [9, 9], none⟩ "u2" "T2"
        (storeOne c3env 10 none ⟨"a.txt", [9, 9], none⟩ "u1" "T1" c3st0)).writeLog
      = c3st0.writeLog ++ ["shared/" ++ "u1" ++ "-" ++ "T1" ++ pathSuffix
          (if c3env.sanitize "a.txt" = "" then "attachment" else c3env.sanitize "a.txt")]
    ∧ fsLookup (storeOne c3env 11 none ⟨"b.txt", [9, 9], none⟩ "u2" "T2"
        (storeOne c3env 10 none ⟨"a.txt", [9, 9], none⟩ "u1" "T1" c3st0)).files
        ("shared/" ++ "u1" ++ "-" ++ "T1" ++ pathSuffix
          (if c3env.sanitize "a.txt" = "" then "attachment" else c3env.sanitize "a.txt"))
      = some [9, 9] :=
  ⟨rfl,
   (c3_dedup_shared_file c3env [9, 9] "a.txt" "b.txt" none none c3st0 "u1" "u2" "T1" "T2"
      10 11 none none (by decide) (by decide) (by decide) (by decide) (by simp [c3st0])).2.2.1,
   (c3_dedup_shared_file c3env [9, 9] "a.txt" "b.txt" none none c3st0 "u1" "u2" "T1" "T2"
      10 11 none none (by decide) (by decide) (by decide) (by decide) (by simp [c3st0])).2.2.2⟩

/-- Pre-existing attachment row for the C4 scenario: checksum "HH", stored at
`shared/old.bin`, with its physical file missing from disk. -/
def c4row : AttachmentRow :=
  { id := 1, ticket_id := 1, update_id := none, original_filename := "orig.bin",
    stored_filename := "shared/old.bin", mimetype := none, size := some 7,
    checksum := some "HH", file_uuid := some "U" }

def c4env : UploadEnv := { hexOf := fun _ => "HH", sanitize := fun s => s }

def c4st0 : StoreState := { files := [], rows := [c4row], nextId := 2, writeLog := [] }

/-- Claim C4 (counterexample): when the checksum matches an existing row whose
stored file is missing from disk, the store does *not* treat the upload as
if no match existed: the new Attachment row reuses the existing row's
`stored_filename` (`shared/old.bin`) and `file_uuid` (`U`) — not the freshly
mintable identifier `FRESH` or the fresh path `shared/FRESH-T9.txt` — while
a new physical file is indeed written (at the old path) rather than
failing. -/
theorem c4_counterexample :
    fsLookup c4st0.files "shared/old.bin" = none
    ∧ (storeOne c4env 3 none ⟨"new.txt", [7], none⟩ "FRESH" "T9" c4st0).rows
      = [c4row,
         { id := 2, ticket_id := 3, update_id := none, original_filename := "new.txt",
           stored_filename := "shared/old.bin", mimetype := none, size := some 1,
           checksum := some "HH", file_uuid := some "U" }]
    ∧ ("shared/old.bin" : String)
      ≠ "shared/" ++ "FRESH" ++ "-" ++ "T9" ++ pathSuffix "new.txt"
    ∧ (storeOne c4env 3 none ⟨"new.txt", [7], none⟩ "FRESH" "T9" c4st0).writeLog
      = ["shared/old.bin"]
    ∧ fsLookup (storeOne c4env 3 none ⟨"new.txt", [7], none⟩ "FRESH" "T9" c4st0).files
        "shared/old.bin" = some [7] := by
  decide

/-- Claim C4 (amended): for every upload whose checksum matches an existing
Attachment row (with a nonempty stored filename and, as always after an
upload, nonempty checksum and identifier) but whose stored file is absent
from disk, the store keeps the existing row's stored path and identifier
and writes the uploaded bytes afresh to that same path rather than failing:
re-uploading matching content after out-of-band deletion creates a new
physical file at the original stored path. -/
theorem c4_amended_rewrite_existing_path
    (env : UploadEnv) (st0 : StoreState) (upload : UploadFile)
    (uuidNext timestamp : String) (tid : Nat) (uid : Option Nat) (ex : AttachmentRow)
    (hname : upload.filename ≠ "")
    (hfind : st0.rows.find? (fun r => r.checksum == some (env.hexOf upload.content))
      = some ex)
    (hstored : ex.stored_filename ≠ "")
    (huuid : ex.file_uuid.getD "" ≠ "")
    (hck : ex.checksum.getD "" ≠ "")
    (hmissing : fsLookup st0.files ex.stored_filename = none) :
    (storeOne env tid uid upload uuidNext timestamp st0).rows
      = st0.rows ++
        [{ id := st0.nextId, ticket_id := tid, update_id := uid,
           original_filename := upload.filename, stored_filename := ex.stored_filename,
           mimetype := upload.mimetype, size := some upload.content.length,
           checksum := some (env.hexOf upload.content),
           file_uuid := some (ex.file_uuid.getD "") }]
    ∧ (storeOne env tid uid upload uuidNext timestamp st0).writeLog
      = st0.writeLog ++ [ex.stored_filename]
    ∧ fsLookup (storeOne env tid uid upload uuidNext timestamp st0).files ex.stored_filename
      = some upload.content := by
  have hst : storeOne env tid uid upload uuidNext timestamp st0
      = { files := fsWrite st0.files ex.stored_filename upload.content,
          rows := st0.rows ++
            [{ id := st0.nextId, ticket_id := tid, update_id := uid,
               original_filename := upload.filename, stored_filename := ex.stored_filename,
               mimetype := upload.mimetype, size := some upload.content.length,
               checksum := some (env.hexOf upload.content),
               file_uuid := some (ex.file_uuid.getD "") }],
          nextId := st0.nextId + 1,
          writeLog := st0.writeLog ++ [ex.stored_filename] } := by
    simp only [storeOne, stream_checksum_eq, if_neg hname, hfind, if_neg hstored,
      if_neg huuid, if_neg hck, hmissing]
  exact ⟨by rw [hst], by rw [hst], by rw [hst]; exact fsLookup_fsWrite_self _ _ _⟩

theorem c4_amended_rewrite_existing_path_witness :
    ("new.txt" : String) ≠ ""
    ∧ (storeOne c4env 3 none ⟨"new.txt", [7], none⟩ "FRESH" "T9" c4st0).writeLog
      = c4st0.writeLog ++ [c4row.stored_filename]
    ∧ fsLookup (storeOne c4env 3 none ⟨"new.txt", [7], none⟩ "FRESH" "T9" c4st0).files
        c4row.stored_filename = some [7] :=
  ⟨by decide,
   (c4_amended_rewrite_existing_path c4env c4st0 ⟨"new.txt", [7], none⟩ "FRESH" "T9" 3 none
      c4row (by decide) (by decide) (by decide) (by decide) (by decide) rfl).2.1,
   (c4_amended_rewrite_existing_path c4env c4st0 ⟨"new.txt", [7], none⟩ "FRESH" "T9" 3 none
      c4row (by decide) (by decide) (by decide) (by decide) (by decide) rfl).2.2⟩

end TicketTracker
